import Mathlib

/-!
Verification of the analyst-9000 agent core: a shallow embedding of the
graph nodes (`nodes.py`), the streaming translation (`graph.py`), the SQL
markdown stripper (`helpers/utils.py`), the SSE chat-completion service
(`chatbot_service.py`) and the conversation-history service
(`chat_history_service.py`), together with proofs of the specified
properties.
-/

namespace Analyst

/-- Maximum number of SQL generation attempts (`core/constants.py`). -/
def MAX_ITERATIONS : Nat := 3

/-- One failed SQL attempt record (`states.py`, TypedDict `Attempt`). -/
structure Attempt where
  sql : String
  error : String
deriving Repr, DecidableEq

/-- Result of `execute_bigquery_sql` (`tools.py`): the tool never raises for
query-level failures; it returns a tagged success (with the stringified rows)
or a failure with an error message. -/
inductive ToolResult where
  | ok (data : String)
  | err (error : String)
deriving Repr, DecidableEq

/-- The per-turn agent state fields the claims are about
(`states.py` `AgentState` plus the keys populated by
`AnalystGraph.create_initial_state`).  The LangChain message list and the
model-override fields are omitted: no claim mentions them. -/
structure AgentState where
  session_id : String
  query : String
  reformed_query : Option String
  intent : Option String
  title : Option String
  response : Option String
  attempt_history : List Attempt
  n_iterations : Nat
  sql_result : Option String
  generated_sql : Option String
deriving Repr, DecidableEq

/-- `AnalystGraph.create_initial_state` (`graph.py`). -/
def create_initial_state (query session_id : String) : AgentState :=
  { session_id := session_id
    query := query
    reformed_query := none
    intent := none
    title := none
    response := none
    attempt_history := []
    n_iterations := 0
    sql_result := none
    generated_sql := none }

/-- The partial state-update dict returned by `sql_generator_node`
(`nodes.py`).  `attempt_history := none` models the key being absent from
the returned dict (the success branch does not include it). -/
structure SqlNodeUpdate where
  generated_sql : String
  sql_result : Option String
  attempt_history : Option (List Attempt)
  n_iterations : Nat
deriving Repr, DecidableEq

/-- The update dict built by `sql_generator_node` (`nodes.py` lines 163-181):
the prompt/LLM part is opaque, so the generated SQL text `gen` and the tool
outcome `res` are inputs.  On success the dict sets `sql_result` to the
stringified data and omits `attempt_history`; on failure it sets
`sql_result` to null and appends one `{sql, error}` record to the history. -/
def sql_generator_update (st : AgentState) (gen : String) (res : ToolResult) : SqlNodeUpdate :=
  match res with
  | ToolResult.ok data =>
      { generated_sql := gen
        sql_result := some data
        attempt_history := none
        n_iterations := st.n_iterations + 1 }
  | ToolResult.err e =>
      { generated_sql := gen
        sql_result := none
        attempt_history := some (st.attempt_history ++ [⟨gen, e⟩])
        n_iterations := st.n_iterations + 1 }

/-- LangGraph's merge of a node's partial update onto the running state:
keys present in the dict replace the state's fields, absent keys leave the
field unchanged. -/
def applySqlUpdate (st : AgentState) (u : SqlNodeUpdate) : AgentState :=
  { st with
    generated_sql := some u.generated_sql
    sql_result := u.sql_result
    attempt_history := u.attempt_history.getD st.attempt_history
    n_iterations := u.n_iterations }

/-- `sql_generator_node` as a state transformer: build the update dict and
merge it onto the state. -/
def sql_generator_node (st : AgentState) (gen : String) (res : ToolResult) : AgentState :=
  applySqlUpdate st (sql_generator_update st gen res)

/-- Targets of the conditional edge after `sql_generator_node`. -/
inductive SqlNext where
  | sql_generator_node
  | response_synthesizer_node
  | error_handler_node
deriving Repr, DecidableEq

/-- `should_retry_sql` (`nodes.py` lines 282-298): result present → synthesize;
retries exhausted → error handler; otherwise retry. -/
def should_retry_sql (st : AgentState) : SqlNext :=
  if st.sql_result.isSome then SqlNext.response_synthesizer_node
  else if MAX_ITERATIONS ≤ st.n_iterations then SqlNext.error_handler_node
  else SqlNext.sql_generator_node

/-- The SQL retry loop of the compiled graph: run `sql_generator_node`, then
follow `should_retry_sql`, looping back while it picks the retry edge.
`oracle n` supplies the opaque LLM/tool outcome of the attempt made when
`n_iterations = n`.  Returns the trace of per-attempt update dicts, the final
merged state, and the edge taken out of the loop.  Fuel makes the recursion
structural; `MAX_ITERATIONS` fuel always suffices because every attempt
increments `n_iterations` and the retry edge requires
`n_iterations < MAX_ITERATIONS`. -/
def runSqlLoop (oracle : Nat → String × ToolResult) :
    Nat → AgentState → List SqlNodeUpdate × AgentState × SqlNext
  | 0, st => ([], st, should_retry_sql st)
  | Nat.succ fuel, st =>
      let p := oracle st.n_iterations
      let u := sql_generator_update st p.1 p.2
      let st' := applySqlUpdate st u
      match should_retry_sql st' with
      | SqlNext.sql_generator_node =>
          let r := runSqlLoop oracle fuel st'
          (u :: r.1, r.2.1, r.2.2)
      | nxt => ([u], st', nxt)

/-- The state entering the SQL loop: the initial state merged with the
router node's update. -/
def initial_sql_state (query session_id : String)
    (intent title reformed_query : Option String) : AgentState :=
  { create_initial_state query session_id with
    intent := intent
    title := title
    reformed_query := reformed_query }

example :
    (runSqlLoop (fun _ => ("q", ToolResult.err "e")) MAX_ITERATIONS
      (initial_sql_state "q" "s" (some "sql_agent") none none)).2.2 =
    SqlNext.error_handler_node := by decide

example :
    (runSqlLoop (fun _ => ("q", ToolResult.err "e")) MAX_ITERATIONS
      (initial_sql_state "q" "s" (some "sql_agent") none none)).2.1.n_iterations = 3 := by
  decide

/-- The fixed apologetic message of `error_handler_node` (`nodes.py`). -/
def errorBase : String :=
  "I apologize, but I was unable to retrieve the data you requested after multiple attempts. The database query encountered errors. Please try rephrasing your question or contact support if the issue persists."

/-- Separator the error handler puts before the truncated last error. -/
def lastErrorTag : String := "\n\n**Last Error:** "

/-- `error_handler_node` (`nodes.py` lines 237-265): model-free and total;
appends the first 200 characters of the most recent attempt's error when the
attempt history is non-empty. -/
def error_handler_node (attempt_history : List Attempt) : String :=
  match attempt_history.getLast? with
  | none => errorBase
  | some a => errorBase ++ lastErrorTag ++ a.error.take 200

/-- Targets of the conditional edge after the router. -/
inductive RouteTarget where
  | qa_node
  | sql_generator_node
deriving Repr, DecidableEq

/-- `route_by_intent` (`nodes.py` lines 268-279): `sql_agent` goes to the SQL
path; `qa_bot` and any unknown or unset intent fall back to the QA node. -/
def route_by_intent (intent : Option String) : RouteTarget :=
  if intent = some "sql_agent" then RouteTarget.sql_generator_node
  else RouteTarget.qa_node

/-- A node-level state update as delivered by `graph.astream(...,
stream_mode="updates")`: the node name together with the partial update dict
it returned.  The three terminal nodes each return a `response` key. -/
inductive NodeUpdate where
  | router (intent title reformed_query : Option String)
  | qa (response : String)
  | synthesizer (response : String)
  | error_handler (response : String)
  | sql (u : SqlNodeUpdate)
deriving Repr, DecidableEq

/-- Events yielded by `AnalystGraph.stream` (`graph.py` lines 110-227). -/
inductive StreamEvent where
  | router (intent title reformed_query : Option String)
  | token (content : Char)
  | sql (query : String) (success : Bool) (error : Option String)
  | final (response : Option String) (title : Option String)
  | error (message : String)
deriving Repr, DecidableEq

/-- The sql event built by `AnalystGraph.stream` (lines 184-194) from the SQL
node's update dict: `success` is whether `sql_result` is non-null, `error` is
the last attempt-history entry's error if the dict's history (defaulting to
empty when the key is absent) is non-empty, else null. -/
def sqlEvent (u : SqlNodeUpdate) : StreamEvent :=
  StreamEvent.sql u.generated_sql u.sql_result.isSome
    ((u.attempt_history.getD []).getLast?.map Attempt.error)

/-- Events yielded by the body of the `astream` loop for one node update
(`graph.py` lines 165-194): one router event, one token event per character
of a terminal node's response, one sql event per SQL attempt. -/
def nodeEvents : NodeUpdate → List StreamEvent
  | NodeUpdate.router i t r => [StreamEvent.router i t r]
  | NodeUpdate.qa resp => resp.toList.map StreamEvent.token
  | NodeUpdate.synthesizer resp => resp.toList.map StreamEvent.token
  | NodeUpdate.error_handler resp => resp.toList.map StreamEvent.token
  | NodeUpdate.sql u => [sqlEvent u]

/-- The `title` local of `AnalystGraph.stream`: reassigned on every router
update, `None` before the first one. -/
def updatesTitle (updates : List NodeUpdate) : Option String :=
  updates.foldl
    (fun t u =>
      match u with
      | NodeUpdate.router _ title _ => title
      | _ => t)
    none

/-- The `final_response` local of `AnalystGraph.stream`: reassigned on every
terminal-node update, `None` before the first one. -/
def updatesFinalResponse (updates : List NodeUpdate) : Option String :=
  updates.foldl
    (fun fr u =>
      match u with
      | NodeUpdate.qa s => some s
      | NodeUpdate.synthesizer s => some s
      | NodeUpdate.error_handler s => some s
      | _ => fr)
    none

/-- The full event sequence yielded by `AnalystGraph.stream` on a run whose
graph execution completes normally: the per-update events in execution
order, then exactly one final event. -/
def streamEvents (updates : List NodeUpdate) : List StreamEvent :=
  updates.flatMap nodeEvents ++
    [StreamEvent.final (updatesFinalResponse updates) (updatesTitle updates)]

/-- The outcome of `AnalystGraph.stream` on a run whose graph execution
raises after producing `updates`: the events yielded (per-update events,
then exactly one error event, the final event never being reached) paired
with the message of the exception re-raised after the error event. -/
def streamEventsRaising (updates : List NodeUpdate) (emsg : String) :
    List StreamEvent × String :=
  (updates.flatMap nodeEvents ++ [StreamEvent.error emsg], emsg)

/-- The update trace a whole turn produces, following the wiring of
`AnalystGraph._build_graph`: router, then either the QA node, or the SQL
retry loop followed by the synthesizer (on success) or the error handler
(retries exhausted).  The opaque LLM outputs are inputs: the router's fields,
the QA and synthesizer response texts, and the per-attempt SQL oracle. -/
def turnUpdates (query session_id : String)
    (intent title reformed_query : Option String)
    (qaResp synthResp : String) (oracle : Nat → String × ToolResult) :
    List NodeUpdate :=
  let ru := NodeUpdate.router intent title reformed_query
  match route_by_intent intent with
  | RouteTarget.qa_node => [ru, NodeUpdate.qa qaResp]
  | RouteTarget.sql_generator_node =>
      let r := runSqlLoop oracle MAX_ITERATIONS
        (initial_sql_state query session_id intent title reformed_query)
      match r.2.2 with
      | SqlNext.response_synthesizer_node =>
          ru :: r.1.map NodeUpdate.sql ++ [NodeUpdate.synthesizer synthResp]
      | _ =>
          ru :: r.1.map NodeUpdate.sql ++
            [NodeUpdate.error_handler (error_handler_node r.2.1.attempt_history)]

/-- Whitespace as matched by Python's `str.strip()` and the regex class
`\s` on the ASCII range (`helpers/utils.py` operates on LLM SQL output). -/
def isPySpace (c : Char) : Bool :=
  c == ' ' || c == '\t' || c == '\n' || c == '\r' || c == '\x0b' || c == '\x0c'

/-- Python `str.strip()` on a character list: drop whitespace from both
ends. -/
def pyStripList (l : List Char) : List Char :=
  ((l.dropWhile isPySpace).reverse.dropWhile isPySpace).reverse

/-- Python `str.strip()`. -/
def pyStrip (s : String) : String := String.mk (pyStripList s.toList)

/-- The backtick character. -/
def tick : Char := Char.ofNat 96

/-- Does the list start with a triple backtick? -/
def startsWithTicks (l : List Char) : Bool :=
  l.take 3 == [tick, tick, tick]

/-- Does the list end with a triple backtick (requiring length at least 3)? -/
def endsWithTicks (l : List Char) : Bool :=
  3 ≤ l.length && l.drop (l.length - 3) == [tick, tick, tick]

/-- Case-insensitive test for a leading `sql`, as the regex `(?:sql)?` under
`re.IGNORECASE`. -/
def lowerStartsWithSql : List Char → Bool
  | a :: b :: c :: _ => a.toLower == 's' && b.toLower == 'q' && c.toLower == 'l'
  | _ => false

/-- The capture group of `re.search(r"^```(?:sql)?\s*(.*)\s*```$", t,
re.DOTALL | re.IGNORECASE)` on an already-stripped `t`, or `none` when the
pattern does not match.  The pattern matches iff `t` starts with a fence
(optionally tagged `sql`, the greedy option preferred) and the remainder
ends with a closing fence; the greedy `(.*)` then captures everything after
the opening fence's trailing whitespace up to the final three backticks, so
`group(1).strip()` equals the remainder without its last three characters,
stripped. -/
def fenceContent (t : List Char) : Option (List Char) :=
  if startsWithTicks t then
    let r0 := t.drop 3
    if lowerStartsWithSql r0 && endsWithTicks (r0.drop 3) then
      some ((r0.drop 3).take ((r0.drop 3).length - 3))
    else if endsWithTicks r0 then
      some (r0.take (r0.length - 3))
    else none
  else none

/-- `clean_sql_output` (`helpers/utils.py` lines 31-41): strip the input,
return the stripped capture if the fence pattern matches, else the stripped
input. -/
def clean_sql_output (s : String) : String :=
  let t := pyStripList s.toList
  match fenceContent t with
  | some m => String.mk (pyStripList m)
  | none => String.mk t

example : clean_sql_output "```sql SELECT 1```" = "SELECT 1" := by decide
example : clean_sql_output "SELECT 1" = "SELECT 1" := by decide
example : clean_sql_output "```\nSELECT 1\n```" = "SELECT 1" := by decide
example : clean_sql_output "  SELECT 1  " = "SELECT 1" := by decide
example : clean_sql_output "``````sql X``````" = "```sql X```" := by decide

/-- Python truthiness of an `Optional[str]`: `None` and the empty string are
falsy. -/
def optTruthy : Option String → Bool
  | none => false
  | some s => !s.isEmpty

/-- The mutable locals of `llm_chat_completion_stream` (`chatbot_service.py`)
while consuming graph events: the captured `title` and the accumulated
`response_text`. -/
structure ConsumerState where
  title : Option String
  response_text : String
deriving Repr, DecidableEq

/-- The SSE completion sentinel line. -/
def doneLine : String := "data: [DONE]\n\n"

/-- The SSE line for a streamed piece of content. -/
def dataLine (content : String) : String := "data: " ++ content ++ "\n\n"

/-- The SSE line announcing the session title. -/
def titleLine (t : String) : String := "data: TITLE: " ++ t ++ "\n\n"

/-- The SSE line surfacing an error message. -/
def errorLine (msg : String) : String := "data: Error: " ++ msg ++ "\n\n"

/-- One iteration of the event loop of `llm_chat_completion_stream`
(`chatbot_service.py` lines 64-109): the updated locals and the SSE lines
yielded for this event.  Router events yield a TITLE line only on the first
message of a session; token events accumulate and yield the content; sql
events only log; final events yield the full response only if no token was
streamed and the title only if not yet captured; error events yield an Error
line. -/
def consumeEvent (is_first_message : Bool) (cs : ConsumerState) :
    StreamEvent → ConsumerState × List String
  | StreamEvent.router _ t _ =>
      if is_first_message && optTruthy t then
        ({ cs with title := t }, [titleLine (t.getD "")])
      else (cs, [])
  | StreamEvent.token c =>
      ({ cs with response_text := cs.response_text ++ String.mk [c] },
        [dataLine (String.mk [c])])
  | StreamEvent.sql _ _ _ => (cs, [])
  | StreamEvent.final resp t =>
      let step1 :=
        if cs.response_text.isEmpty && optTruthy resp then
          ({ cs with response_text := resp.getD "" }, [dataLine (resp.getD "")])
        else (cs, [])
      let step2 :=
        if !optTruthy step1.1.title && optTruthy t then
          ({ step1.1 with title := t }, [titleLine (t.getD "")])
        else (step1.1, [])
      (step2.1, step1.2 ++ step2.2)
  | StreamEvent.error m => (cs, [errorLine m])

/-- The whole event loop: thread the consumer state through the events,
concatenating the yielded lines. -/
def consumeEvents (is_first_message : Bool) :
    ConsumerState → List StreamEvent → ConsumerState × List String
  | cs, [] => (cs, [])
  | cs, ev :: evs =>
      let s1 := consumeEvent is_first_message cs ev
      let s2 := consumeEvents is_first_message s1.1 evs
      (s2.1, s1.2 ++ s2.2)

/-- What the graph stream did on this turn: completed normally after
producing `updates`, or raised an exception with message `emsg` after
producing `updates` (having yielded one error event before re-raising). -/
inductive GraphOutcome where
  | ok (updates : List NodeUpdate)
  | failed (updates : List NodeUpdate) (emsg : String)
deriving Repr, DecidableEq

/-- SSE lines yielded by the end-of-turn `save_conversation` step of
`llm_chat_completion_stream` (lines 117-129): the call sits in a
`try/except` whose handler only logs, so neither outcome yields a line. -/
def saveConversationLines : Bool → List String
  | true => []
  | false => []

/-- `llm_chat_completion_stream` (`chatbot_service.py` lines 15-132) as a
function of its collaborators' behavior: whether session initialization
fails, whether this is the session's first message, the graph stream's
outcome, and whether the end-of-turn save fails.  Produces the full ordered
list of SSE lines yielded to the caller. -/
def llm_chat_completion_stream (sessionInitFails is_first_message : Bool)
    (outcome : GraphOutcome) (saveFails : Bool) : List String :=
  if sessionInitFails then
    ["data: Error: Failed to initialize session\n\n", doneLine]
  else
    match outcome with
    | GraphOutcome.ok updates =>
        (consumeEvents is_first_message ⟨none, ""⟩ (streamEvents updates)).2 ++
          saveConversationLines saveFails ++ [doneLine]
    | GraphOutcome.failed updates emsg =>
        (consumeEvents is_first_message ⟨none, ""⟩
            (streamEventsRaising updates emsg).1).2 ++
          [errorLine emsg, doneLine]

example :
    llm_chat_completion_stream false false (GraphOutcome.failed [] "boom") false =
      ["data: Error: boom\n\n", "data: Error: boom\n\n", "data: [DONE]\n\n"] := by
  decide

/-- A stored chat message (`db_schemas.py` `Message`); the free-form
`metadata` field is omitted, and `content` is modelled as its string case. -/
structure Message where
  role : String
  content : String
  timestamp : String
  message_id : Option String
deriving Repr, DecidableEq

/-- A chat session (`db_schemas.py` `ChatSession`); the timestamps and
`is_active` flag play no part in the claims about history building. -/
structure ChatSession where
  id : String
  title : Option String
  messages : List Message
  message_count : Nat
deriving Repr, DecidableEq

/-- `format_new_message` (`chat_history_utils.py`): the timestamp and the
fresh UUID are ambient effects, passed in as parameters `ts` and `mid`. -/
def format_new_message (content role ts mid : String) : Message :=
  { role := role, content := content, timestamp := ts, message_id := some mid }

/-- LangChain messages as used by the history service. -/
inductive LCMessage where
  | human (content : String)
  | ai (content : String)
deriving Repr, DecidableEq

/-- `convert_memory_to_langchain_messages` (`chat_history_utils.py`): user
messages become human messages, assistant messages become AI messages, any
other role is dropped. -/
def convert_memory_to_langchain_messages (msgs : List Message) : List LCMessage :=
  msgs.filterMap (fun m =>
    if m.role == "user" then some (LCMessage.human m.content)
    else if m.role == "assistant" then some (LCMessage.ai m.content)
    else none)

/-- Python's `l[-n:]` slice: the whole list when `n = 0`, otherwise the last
`n` elements. -/
def pySliceLast (n : Nat) (l : List α) : List α :=
  if n = 0 then l else l.drop (l.length - n)

/-- `get_conversation_history` (`chat_history_service.py` lines 36-77).
`MAX_HISTORY_MESSAGES` is imported there from `core/constants.py` but not
defined in it, so the cropping window is a parameter `N` here (modelled from
the spec: a positive conversation-cropping window).  Returns (full message
list for storage, cropped LangChain memory, updated message count, first
message flag). -/
def get_conversation_history (N : Nat) (session : ChatSession)
    (user_query ts mid : String) :
    List Message × List LCMessage × Nat × Bool :=
  let messages := session.messages
  let is_first_message := messages.isEmpty
  let new_message := format_new_message user_query "user" ts mid
  if messages.isEmpty then
    (messages ++ [new_message], [LCMessage.human user_query],
      session.message_count + 1, is_first_message)
  else
    let cropped :=
      if N < messages.length then pySliceLast N messages else messages
    (messages ++ [new_message],
      convert_memory_to_langchain_messages cropped ++ [LCMessage.human user_query],
      session.message_count + 1, is_first_message)

/-- Token events carried by an event list, in order. -/
def tokenChars (evs : List StreamEvent) : List Char :=
  evs.filterMap (fun e =>
    match e with
    | StreamEvent.token c => some c
    | _ => none)

/-- Is this a sql event? -/
def isSqlEvent : StreamEvent → Bool
  | StreamEvent.sql _ _ _ => true
  | _ => false

/-- Is this an error event? -/
def isErrorEvent : StreamEvent → Bool
  | StreamEvent.error _ => true
  | _ => false

/-- Is this a final event? -/
def isFinalEvent : StreamEvent → Bool
  | StreamEvent.final _ _ => true
  | _ => false

section Helpers

lemma string_mk_toList (s : String) : String.mk s.toList = s := rfl

lemma string_toList_mk (l : List Char) : (String.mk l).toList = l := rfl

lemma nodeEvents_filter_error (u : NodeUpdate) :
    (nodeEvents u).filter isErrorEvent = [] := by
  cases u <;>
    simp [nodeEvents, isErrorEvent, sqlEvent, List.filter_map, Function.comp]

lemma nodeEvents_filter_final (u : NodeUpdate) :
    (nodeEvents u).filter isFinalEvent = [] := by
  cases u <;>
    simp [nodeEvents, isFinalEvent, sqlEvent, List.filter_map, Function.comp]

lemma flatMap_nodeEvents_filter_error (updates : List NodeUpdate) :
    (updates.flatMap nodeEvents).filter isErrorEvent = [] := by
  induction updates with
  | nil => rfl
  | cons u us ih =>
      simp [List.flatMap_cons, List.filter_append, ih, nodeEvents_filter_error]

lemma flatMap_nodeEvents_filter_final (updates : List NodeUpdate) :
    (updates.flatMap nodeEvents).filter isFinalEvent = [] := by
  induction updates with
  | nil => rfl
  | cons u us ih =>
      simp [List.flatMap_cons, List.filter_append, ih, nodeEvents_filter_final]

end Helpers

/-- C4: for every SQL generator node completion, the stream yields a sql
event whose `success` field is true exactly when the attempt's `sql_result`
is non-null; on a failed attempt the `error` field is the error string of
the latest attempt-history entry, and on a successful attempt it is null
even when earlier attempts in the same turn failed (the success branch's
update dict omits `attempt_history`, so the stream sees an empty default). -/
theorem sql_event_fields (st : AgentState) (g : String) :
    (∀ d, sqlEvent (sql_generator_update st g (ToolResult.ok d)) =
        StreamEvent.sql g true none) ∧
    (∀ e, sqlEvent (sql_generator_update st g (ToolResult.err e)) =
        StreamEvent.sql g false (some e)) ∧
    (∀ d, (sql_generator_node st g (ToolResult.ok d)).sql_result = some d) ∧
    (∀ e, (sql_generator_node st g (ToolResult.err e)).sql_result = none) := by
  refine ⟨fun d => ?_, fun e => ?_, fun d => rfl, fun e => rfl⟩
  · simp [sqlEvent, sql_generator_update]
  · simp [sqlEvent, sql_generator_update]

/-- C6: `error_handler_node` is a total deterministic function of the
attempt history alone; its response starts with the fixed apologetic
message, and when the history is non-empty it is exactly that message
followed by the tag and the first 200 characters of the most recent
attempt's error. -/
theorem error_handler_node_spec (h : List Attempt) :
    (∃ rest, error_handler_node h = errorBase ++ rest) ∧
    (∀ a, h.getLast? = some a →
      error_handler_node h = errorBase ++ lastErrorTag ++ a.error.take 200) := by
  constructor
  · cases hl : h.getLast? with
    | none => exact ⟨"", by simp [error_handler_node, hl]⟩
    | some a =>
        refine ⟨lastErrorTag ++ a.error.take 200, ?_⟩
        simp [error_handler_node, hl, String.append_assoc]
  · intro a ha
    simp [error_handler_node, ha]

/-- Witness for C6: three failed attempts with distinct errors; the response
carries the third error, not the first or second. -/
theorem error_handler_node_spec_witness :
    error_handler_node [⟨"s1", "e1"⟩, ⟨"s2", "e2"⟩, ⟨"s3", "e3"⟩] =
      errorBase ++ lastErrorTag ++ String.take "e3" 200 :=
  (error_handler_node_spec _).2 ⟨"s3", "e3"⟩ (by decide)

/-- C7: when graph execution raises after some prefix of node updates, the
stream yields exactly one error event, that event carries the exception's
message and is the last item yielded, no final event is yielded, and the
same exception message is re-raised to the caller. -/
theorem stream_raising_spec (updates : List NodeUpdate) (emsg : String) :
    (streamEventsRaising updates emsg).1.getLast? =
      some (StreamEvent.error emsg) ∧
    (streamEventsRaising updates emsg).1.filter isErrorEvent =
      [StreamEvent.error emsg] ∧
    (streamEventsRaising updates emsg).1.filter isFinalEvent = [] ∧
    (streamEventsRaising updates emsg).2 = emsg := by
  refine ⟨?_, ?_, ?_, rfl⟩
  · simp [streamEventsRaising, List.getLast?_concat]
  · simp [streamEventsRaising, List.filter_append,
      flatMap_nodeEvents_filter_error, isErrorEvent]
  · simp [streamEventsRaising, List.filter_append,
      flatMap_nodeEvents_filter_final, isFinalEvent]

/-- C1: on a SQL-path turn where every SQL execution fails, the retry loop
exits through the error-handler edge with `n_iterations` and the attempt
history length both exactly `MAX_ITERATIONS`; moreover `should_retry_sql`
picks the retry edge whenever `sql_result` is null and
`n_iterations < MAX_ITERATIONS`, and the error-handler edge whenever
`sql_result` is null and `n_iterations ≥ MAX_ITERATIONS`. -/
theorem sql_all_fail_exhausts_retries (q sid : String)
    (intent title reformed : Option String)
    (oracle : Nat → String × ToolResult)
    (hfail : ∀ n, ∃ e, (oracle n).2 = ToolResult.err e) :
    (runSqlLoop oracle MAX_ITERATIONS
        (initial_sql_state q sid intent title reformed)).2.2 =
      SqlNext.error_handler_node ∧
    (runSqlLoop oracle MAX_ITERATIONS
        (initial_sql_state q sid intent title reformed)).2.1.n_iterations =
      MAX_ITERATIONS ∧
    (runSqlLoop oracle MAX_ITERATIONS
        (initial_sql_state q sid intent title reformed)).2.1.attempt_history.length =
      MAX_ITERATIONS ∧
    (∀ st : AgentState, st.sql_result = none →
      st.n_iterations < MAX_ITERATIONS →
      should_retry_sql st = SqlNext.sql_generator_node) ∧
    (∀ st : AgentState, st.sql_result = none →
      MAX_ITERATIONS ≤ st.n_iterations →
      should_retry_sql st = SqlNext.error_handler_node) := by
  obtain ⟨e0, h0⟩ := hfail 0
  obtain ⟨e1, h1⟩ := hfail 1
  obtain ⟨e2, h2⟩ := hfail 2
  refine ⟨?_, ?_, ?_, ?_, ?_⟩
  · simp [MAX_ITERATIONS, runSqlLoop, initial_sql_state, create_initial_state,
      sql_generator_update, applySqlUpdate, should_retry_sql, h0, h1, h2]
  · simp [MAX_ITERATIONS, runSqlLoop, initial_sql_state, create_initial_state,
      sql_generator_update, applySqlUpdate, should_retry_sql, h0, h1, h2]
  · simp [MAX_ITERATIONS, runSqlLoop, initial_sql_state, create_initial_state,
      sql_generator_update, applySqlUpdate, should_retry_sql, h0, h1, h2]
  · intro st hres hlt
    simp [should_retry_sql, hres, Nat.not_le.mpr hlt]
  · intro st hres hle
    simp [should_retry_sql, hres, hle]

/-- Witness for C1: a concrete oracle whose every execution fails. -/
theorem sql_all_fail_exhausts_retries_witness :
    (runSqlLoop (fun _ => ("SELECT 1", ToolResult.err "boom")) MAX_ITERATIONS
        (initial_sql_state "total revenue" "s1" (some "sql_agent") none
          (some "total revenue"))).2.2 =
      SqlNext.error_handler_node :=
  (sql_all_fail_exhausts_retries "total revenue" "s1" (some "sql_agent") none
    (some "total revenue") _ (fun _ => ⟨"boom", rfl⟩)).1

/-- C2: each `sql_generator_node` run increments `n_iterations` by exactly
one whether it succeeds or fails, appends exactly one record to
`attempt_history` on failure and none on success; consequently when the
first successful execution happens on attempt `k` (1 ≤ k ≤ MAX_ITERATIONS),
the loop exits to the synthesizer with `n_iterations = k` and exactly
`k - 1` history entries. -/
theorem sql_success_attempt_counts (q sid : String)
    (intent title reformed : Option String)
    (oracle : Nat → String × ToolResult) (k : Nat)
    (hk1 : 1 ≤ k) (hk2 : k ≤ MAX_ITERATIONS)
    (hfail : ∀ n, n + 1 < k → ∃ e, (oracle n).2 = ToolResult.err e)
    (hsucc : ∃ d, (oracle (k - 1)).2 = ToolResult.ok d) :
    (∀ (st : AgentState) (g : String) (r : ToolResult),
      (sql_generator_node st g r).n_iterations = st.n_iterations + 1) ∧
    (∀ (st : AgentState) (g e : String),
      (sql_generator_node st g (ToolResult.err e)).attempt_history =
        st.attempt_history ++ [⟨g, e⟩]) ∧
    (∀ (st : AgentState) (g d : String),
      (sql_generator_node st g (ToolResult.ok d)).attempt_history =
        st.attempt_history) ∧
    (runSqlLoop oracle MAX_ITERATIONS
        (initial_sql_state q sid intent title reformed)).2.2 =
      SqlNext.response_synthesizer_node ∧
    (runSqlLoop oracle MAX_ITERATIONS
        (initial_sql_state q sid intent title reformed)).2.1.n_iterations = k ∧
    (runSqlLoop oracle MAX_ITERATIONS
        (initial_sql_state q sid intent title reformed)).2.1.attempt_history.length =
      k - 1 := by
  obtain ⟨d, hd⟩ := hsucc
  refine ⟨?_, ?_, ?_, ?_⟩
  · intro st g r
    cases r <;> rfl
  · intro st g e
    rfl
  · intro st g d'
    rfl
  · have hk3 : k ≤ 3 := by simpa [MAX_ITERATIONS] using hk2
    interval_cases k
    · refine ⟨?_, ?_, ?_⟩ <;>
        simp [MAX_ITERATIONS, runSqlLoop, initial_sql_state, create_initial_state,
          sql_generator_update, applySqlUpdate, should_retry_sql, hd]
    · obtain ⟨e0, h0⟩ := hfail 0 (by norm_num)
      refine ⟨?_, ?_, ?_⟩ <;>
        simp [MAX_ITERATIONS, runSqlLoop, initial_sql_state, create_initial_state,
          sql_generator_update, applySqlUpdate, should_retry_sql, h0, hd]
    · obtain ⟨e0, h0⟩ := hfail 0 (by norm_num)
      obtain ⟨e1, h1⟩ := hfail 1 (by norm_num)
      refine ⟨?_, ?_, ?_⟩ <;>
        simp [MAX_ITERATIONS, runSqlLoop, initial_sql_state, create_initial_state,
          sql_generator_update, applySqlUpdate, should_retry_sql, h0, h1, hd]

/-- Witness for C2: the first attempt fails, the second succeeds (`k = 2`);
at the point of success the loop reports one history entry and two
iterations. -/
theorem sql_success_attempt_counts_witness :
    (runSqlLoop
        (fun n => if n == 0 then ("A", ToolResult.err "bad") else ("B", ToolResult.ok "rows"))
        MAX_ITERATIONS
        (initial_sql_state "q" "s2" (some "sql_agent") none none)).2.1.n_iterations = 2 :=
  (sql_success_attempt_counts "q" "s2" (some "sql_agent") none none _ 2
    (by decide) (by decide)
    (fun n hn => ⟨"bad", by
      have hz : n = 0 := by omega
      subst hz
      rfl⟩)
    ⟨"rows", rfl⟩).2.2.2.2.1

section TokenHelpers

lemma tokenChars_map_token (l : List Char) :
    tokenChars (l.map StreamEvent.token) = l := by
  induction l with
  | nil => rfl
  | cons c l ih => simpa [tokenChars, List.filterMap_cons] using ih

lemma tokenChars_append (l1 l2 : List StreamEvent) :
    tokenChars (l1 ++ l2) = tokenChars l1 ++ tokenChars l2 :=
  List.filterMap_append _ _ _

lemma tokenChars_final (r t : Option String) :
    tokenChars [StreamEvent.final r t] = [] := rfl

lemma tokenChars_cons_router (i t r : Option String) (rest : List StreamEvent) :
    tokenChars (StreamEvent.router i t r :: rest) = tokenChars rest := rfl

lemma string_mk_data (s : String) : String.mk s.data = s := rfl

end TokenHelpers

/-- C3: on a successful QA-path turn the stream yields exactly one router
event, then one token event per character of the QA response in order, then
exactly one final event whose response equals the concatenation of the token
contents; no sql event appears. -/
theorem qa_turn_event_sequence (q sid : String)
    (intent title reformed : Option String)
    (qaResp synthResp : String) (oracle : Nat → String × ToolResult)
    (hroute : route_by_intent intent = RouteTarget.qa_node) :
    streamEvents (turnUpdates q sid intent title reformed qaResp synthResp oracle) =
      [StreamEvent.router intent title reformed] ++
        qaResp.toList.map StreamEvent.token ++
        [StreamEvent.final (some qaResp) title] ∧
    (streamEvents (turnUpdates q sid intent title reformed qaResp synthResp oracle)).filter
        isSqlEvent = [] ∧
    String.mk (tokenChars
        (streamEvents (turnUpdates q sid intent title reformed qaResp synthResp oracle))) =
      qaResp := by
  have h1 : streamEvents (turnUpdates q sid intent title reformed qaResp synthResp oracle) =
      [StreamEvent.router intent title reformed] ++
        qaResp.toList.map StreamEvent.token ++
        [StreamEvent.final (some qaResp) title] := by
    simp [turnUpdates, hroute, streamEvents, nodeEvents, updatesTitle,
      updatesFinalResponse]
  refine ⟨h1, ?_, ?_⟩
  · rw [h1]
    simp [isSqlEvent, List.filter_append, List.filter_map]
  · rw [h1]
    simp [tokenChars_append, tokenChars_final, tokenChars_cons_router,
      tokenChars_map_token, string_mk_toList, string_mk_data]

/-- Witness for C3: a concrete QA turn with response "Yo". -/
theorem qa_turn_event_sequence_witness :
    streamEvents (turnUpdates "hi" "s3" (some "qa_bot") none (some "hi") "Yo"
        "syn" (fun _ => ("x", ToolResult.err "e"))) =
      [StreamEvent.router (some "qa_bot") none (some "hi")] ++
        ("Yo" : String).toList.map StreamEvent.token ++
        [StreamEvent.final (some "Yo") none] :=
  (qa_turn_event_sequence "hi" "s3" (some "qa_bot") none (some "hi") "Yo" "syn"
    (fun _ => ("x", ToolResult.err "e")) (by decide)).1

lemma consumeEvents_append (b : Bool) (cs : ConsumerState)
    (l1 l2 : List StreamEvent) :
    consumeEvents b cs (l1 ++ l2) =
      ((consumeEvents b (consumeEvents b cs l1).1 l2).1,
        (consumeEvents b cs l1).2 ++ (consumeEvents b (consumeEvents b cs l1).1 l2).2) := by
  induction l1 generalizing cs with
  | nil => simp [consumeEvents]
  | cons ev evs ih => simp [consumeEvents, ih]

/-- C9: a failure of the end-of-turn conversation save changes nothing in
the SSE output: the stream still consists of the lines defined by the graph
events followed by the `[DONE]` sentinel, identical to a turn whose save
succeeds, with the sentinel last. -/
theorem save_failure_swallowed (is_first : Bool) (updates : List NodeUpdate)
    (saveFails : Bool) :
    llm_chat_completion_stream false is_first (GraphOutcome.ok updates) saveFails =
      llm_chat_completion_stream false is_first (GraphOutcome.ok updates) false ∧
    llm_chat_completion_stream false is_first (GraphOutcome.ok updates) saveFails =
      (consumeEvents is_first ⟨none, ""⟩ (streamEvents updates)).2 ++ [doneLine] ∧
    (llm_chat_completion_stream false is_first (GraphOutcome.ok updates) saveFails).getLast? =
      some doneLine := by
  have hsave : saveConversationLines saveFails = [] := by cases saveFails <;> rfl
  refine ⟨?_, ?_, ?_⟩
  · cases saveFails <;> rfl
  · simp [llm_chat_completion_stream, hsave]
  · simp [llm_chat_completion_stream, hsave, List.getLast?_concat]

/-- C8 (amended): an error during graph execution is surfaced on the SSE
wire as the line `data: Error: <message>\n\n` emitted twice in a row — once
forwarded from the stream's error event and once from the service's
exception handler — followed by `data: [DONE]\n\n`; the `[DONE]` sentinel is
the last line on every path (success, graph failure, or session-init
failure). -/
theorem sse_error_surfacing (is_first : Bool) (updates : List NodeUpdate)
    (emsg : String) (saveFails : Bool) :
    llm_chat_completion_stream false is_first (GraphOutcome.failed updates emsg) saveFails =
      (consumeEvents is_first ⟨none, ""⟩ (updates.flatMap nodeEvents)).2 ++
        [errorLine emsg, errorLine emsg, doneLine] ∧
    (∀ (sif b : Bool) (outcome : GraphOutcome),
      (llm_chat_completion_stream sif is_first outcome b).getLast? =
        some doneLine) := by
  constructor
  · simp [llm_chat_completion_stream, streamEventsRaising, consumeEvents_append,
      consumeEvents, consumeEvent]
  · intro sif b outcome
    cases sif
    · cases outcome with
      | ok us =>
          have hsave : saveConversationLines b = [] := by cases b <;> rfl
          simp [llm_chat_completion_stream, hsave, List.getLast?_concat]
      | failed us m =>
          simp [llm_chat_completion_stream, List.getLast?_append]
    · rfl

/-- Counterexample for C8 as stated: on a graph failure with message "boom"
the wire carries the `data: Error: boom` line twice before the sentinel,
not a single such line. -/
theorem sse_single_error_line_refuted :
    llm_chat_completion_stream false false (GraphOutcome.failed [] "boom") false =
      [errorLine "boom", errorLine "boom", doneLine] ∧
    (llm_chat_completion_stream false false (GraphOutcome.failed [] "boom")
        false).count (errorLine "boom") ≠ 1 := by
  constructor
  · decide
  · decide

/-- C10: `get_conversation_history` flags the first message exactly when the
session has no stored messages, extends the stored messages by exactly one
user message carrying the query, ends the LLM memory with a human message
carrying the query, keeps the memory within the cropping window plus the new
message, and increments the message count by one.  The cropping window is
the positive constant `MAX_HISTORY_MESSAGES` (parameter `N`). -/
theorem get_conversation_history_spec (N : Nat) (session : ChatSession)
    (q ts mid : String) (hN : 0 < N) :
    (get_conversation_history N session q ts mid).2.2.2 = session.messages.isEmpty ∧
    (get_conversation_history N session q ts mid).1 =
      session.messages ++ [format_new_message q "user" ts mid] ∧
    (format_new_message q "user" ts mid).role = "user" ∧
    (format_new_message q "user" ts mid).content = q ∧
    (get_conversation_history N session q ts mid).2.1.getLast? =
      some (LCMessage.human q) ∧
    (get_conversation_history N session q ts mid).2.1.length ≤ N + 1 ∧
    (get_conversation_history N session q ts mid).2.2.1 =
      session.message_count + 1 := by
  by_cases hemp : session.messages.isEmpty
  · refine ⟨?_, ?_, rfl, rfl, ?_, ?_, ?_⟩ <;>
      simp [get_conversation_history, hemp]
  · have hcrop : (if N < session.messages.length
        then pySliceLast N session.messages else session.messages).length ≤ N := by
      by_cases hlt : N < session.messages.length
      · have hne : N ≠ 0 := Nat.pos_iff_ne_zero.mp hN
        simp [hlt, pySliceLast, hne, List.length_drop]
        omega
      · simpa [hlt] using Nat.le_of_not_lt hlt
    have hmem : (convert_memory_to_langchain_messages
        (if N < session.messages.length
          then pySliceLast N session.messages else session.messages)).length ≤ N :=
      le_trans (List.length_filterMap_le _ _) hcrop
    refine ⟨?_, ?_, rfl, rfl, ?_, ?_, ?_⟩ <;>
      simp [get_conversation_history, hemp, List.getLast?_concat]
    omega

/-- Witness for C10: a three-message session with window 2; the memory stays
within 3 entries. -/
theorem get_conversation_history_spec_witness :
    (get_conversation_history 2
        ⟨"sid", none,
          [⟨"user", "a", "t0", none⟩, ⟨"assistant", "b", "t1", none⟩,
            ⟨"user", "c", "t2", none⟩], 3⟩
        "next" "t3" "m1").2.1.length ≤ 2 + 1 :=
  (get_conversation_history_spec 2
    ⟨"sid", none,
      [⟨"user", "a", "t0", none⟩, ⟨"assistant", "b", "t1", none⟩,
        ⟨"user", "c", "t2", none⟩], 3⟩
    "next" "t3" "m1" (by decide)).2.2.2.2.2.1

section StripHelpers

lemma toList_eq_data (s : String) : s.toList = s.data := rfl

lemma dropWhile_dropWhile (p : α → Bool) (l : List α) :
    (l.dropWhile p).dropWhile p = l.dropWhile p := by
  induction l with
  | nil => rfl
  | cons a l ih =>
      by_cases h : p a = true
      · simp [List.dropWhile_cons, h, ih]
      · simp [List.dropWhile_cons, h]

lemma length_dropWhile_le (p : α → Bool) (l : List α) :
    (l.dropWhile p).length ≤ l.length := by
  induction l with
  | nil => simp
  | cons a l ih =>
      by_cases h : p a = true
      · simp only [List.dropWhile_cons, h, if_true]
        exact le_trans ih (Nat.le_succ _)
      · simp [List.dropWhile_cons, h]

lemma dropWhile_eq_self_of_append (p : α → Bool) (m' u : List α)
    (h : (m' ++ u).dropWhile p = m' ++ u) : m'.dropWhile p = m' := by
  cases m' with
  | nil => rfl
  | cons a t =>
      have ha : p a = false := by
        by_contra hc
        have ha' : p a = true := by
          cases hpa : p a
          · exact absurd hpa hc
          · rfl
        have h1 : ((a :: t) ++ u).dropWhile p = (t ++ u).dropWhile p := by
          simp [List.dropWhile_cons, ha']
        have h2 : ((t ++ u).dropWhile p).length ≤ (t ++ u).length :=
          length_dropWhile_le _ _
        rw [h1] at h
        have h3 := congrArg List.length h
        simp only [List.length_cons, List.length_append] at h3 h2
        omega
      simp [List.dropWhile_cons, ha]

lemma rstrip_front_of_strip (p : α → Bool) (m : List α) :
    ∃ u, m = (m.reverse.dropWhile p).reverse ++ u := by
  refine ⟨(m.reverse.takeWhile p).reverse, ?_⟩
  conv_lhs =>
    rw [← List.reverse_reverse m, ← List.takeWhile_append_dropWhile p m.reverse]
  rw [List.reverse_append]

lemma pyStripList_idem (l : List Char) :
    pyStripList (pyStripList l) = pyStripList l := by
  unfold pyStripList
  set p := isPySpace with hp
  set m := l.dropWhile p with hm
  set x := (m.reverse.dropWhile p).reverse with hx
  have hDm : m.dropWhile p = m := dropWhile_dropWhile p l
  have hDx : x.dropWhile p = x := by
    obtain ⟨u, hu⟩ := rstrip_front_of_strip p m
    refine dropWhile_eq_self_of_append p x u ?_
    rw [← hu]
    exact hDm
  rw [hDx]
  have hrev : x.reverse.dropWhile p = x.reverse := by
    rw [hx, List.reverse_reverse]
    exact dropWhile_dropWhile p m.reverse
  rw [hrev, List.reverse_reverse]

lemma clean_sql_output_eq (s : String) :
    clean_sql_output s =
      match fenceContent (pyStripList s.data) with
      | some m => String.mk (pyStripList m)
      | none => String.mk (pyStripList s.data) := by
  cases hf : fenceContent (pyStripList s.data) <;>
    simp [clean_sql_output, toList_eq_data, hf]

lemma clean_sql_output_stripped (s : String) :
    pyStripList (clean_sql_output s).data = (clean_sql_output s).data := by
  rw [clean_sql_output_eq]
  cases hf : fenceContent (pyStripList s.data) <;>
    simp [hf, pyStripList_idem]

end StripHelpers

/-- C5 (amended): `clean_sql_output` behaves as specified on the two
reference inputs, and applying it twice equals applying it once for every
input whose first application's result does not itself match the code-fence
pattern; it is not idempotent in general, because nested fences are
stripped one layer per application. -/
theorem clean_sql_output_amended_spec :
    (∀ s : String, pyStrip s = s → fenceContent s.toList = none →
        clean_sql_output s = s) ∧
    clean_sql_output "```sql SELECT 1```" = "SELECT 1" ∧
    clean_sql_output "SELECT 1" = "SELECT 1" ∧
    (∀ s : String, fenceContent (clean_sql_output s).toList = none →
        clean_sql_output (clean_sql_output s) = clean_sql_output s) := by
  refine ⟨?_, by decide, by decide, ?_⟩
  · intro s h1 h2
    have key : pyStripList s.data = s.data := by
      have h3 := congrArg String.data h1
      simpa [pyStrip, toList_eq_data] using h3
    rw [clean_sql_output_eq, key]
    rw [toList_eq_data] at h2
    rw [h2]
  · intro s h
    have hstr := clean_sql_output_stripped s
    rw [toList_eq_data] at h
    rw [clean_sql_output_eq (clean_sql_output s), hstr, h]

/-- Witness for C5's amended statement: "SELECT 1" is already clean and
cleaning leaves it unchanged. -/
theorem clean_sql_output_amended_spec_witness :
    pyStrip "SELECT 1" = "SELECT 1" ∧
    fenceContent ("SELECT 1" : String).toList = none ∧
    clean_sql_output "SELECT 1" = "SELECT 1" :=
  ⟨by decide, by decide,
    clean_sql_output_amended_spec.1 "SELECT 1" (by decide) (by decide)⟩

/-- Counterexample for C5 as stated: cleaning is not idempotent for every
input; a nested fence loses one layer per application. -/
theorem clean_sql_output_not_idempotent :
    clean_sql_output (clean_sql_output "``````sql X``````") ≠
      clean_sql_output "``````sql X``````" := by decide

end Analyst
